import Mathlib

/-!
Verification development for the market networking layer (`market/network.py`)
of a decentralized-marketplace node.  The Python code is shallowly embedded:
byte strings become `List Nat` (one element per byte, or per character for
text), protobuf messages become structures, and the cryptographic primitives
(SHA-512, Ed25519 verification, protobuf serialization, NaCl boxes) are passed
in as function parameters, since the properties under study quantify over
their outcomes.  Python `for x in lst: ... lst.remove(x)` loops are embedded
with their exact index-based semantics (the iterator holds an index into the
list being mutated), which is observable behaviour of the source.
-/

/-- One byte rendered as its two hexadecimal digits (high nibble first),
as `binascii.hexlify` and `HexEncoder` do byte by byte. -/
def hexPair (b : Nat) : List Nat := [b / 16, b % 16]

/-- Hex encoding of a byte string, as a list of hex-digit values.  Models both
`binascii.hexlify` and the hex digest returned by `nacl.hash.sha512` (whose
default encoder is `HexEncoder`). -/
def hexChars (bs : List Nat) : List Nat := bs.flatMap hexPair

/-- `int(s, 16)` on a string of hex digits. -/
def intHex (ds : List Nat) : Nat := ds.foldl (fun a d => 16 * a + d) 0

/-- Big-endian integer value of a byte string. -/
def beInt (bs : List Nat) : Nat := bs.foldl (fun a b => 256 * a + b) 0

/-- The GUID proof-of-work / binding check from `market/network.py`
(`get_followers` lines 328-331, `get_following` lines 365-368,
`get_messages` lines 466-469): with `h` the hex digest of the binding hash,
`pow_hash = h[64:128]`, the identity is valid iff `int(pow_hash[:6], 16) < 50`
and `hexlify(guid) == h[:40]`.  `hashBytes` is the raw 64-byte hash output. -/
def guidValid (hashBytes guid : List Nat) : Bool :=
  decide (intHex ((((hexChars hashBytes).drop 64).take 64).take 6) < 50) &&
  decide (hexChars guid = (hexChars hashBytes).take 40)

/-- An `objects.Followers.Follower` protobuf entry; `metadata` stands for the
serialized metadata submessage, opaque to the checks under study. -/
structure Follower where
  guid : List Nat
  following : List Nat
  signed_pubkey : List Nat
  metadata : List Nat
  signature : List Nat
deriving DecidableEq

/-- `follower.ClearField("signature")`: protobuf clears a bytes field to the
empty string.  The mutation happens in place on the list element. -/
def clearSig (f : Follower) : Follower := { f with signature := [] }

/-- `nacl.signing.VerifyKey(signed_pubkey[64:])` raises unless the key
material is exactly 32 bytes; this part of the check is concrete. -/
def signingKeyOk (signed_pubkey : List Nat) : Bool :=
  (signed_pubkey.drop 64).length == 32

/-- The body of the per-follower `try` in `get_followers` after the
`VerifyKey` construction: Ed25519 verification of the serialized entry with
its signature field cleared, the GUID proof-of-work, and the
`follower.following != node_to_ask.id` check (lines 324-333).  `sha` is raw
SHA-512, `ver pk msg sig` the signature-verification outcome, `ser`
protobuf serialization. -/
def followerChecksOk (sha : List Nat → List Nat)
    (ver : List Nat → List Nat → List Nat → Bool) (ser : Follower → List Nat)
    (nodeId : List Nat) (f : Follower) : Bool :=
  ver (f.signed_pubkey.drop 64) (ser (clearSig f)) f.signature &&
  guidValid (sha f.signed_pubkey) f.guid &&
  decide (f.following = nodeId)

/-- Python `list.remove(x)`: deletes the first element equal to `x`.
(In the source the element is always present, so the missing-element
`ValueError` case cannot arise; it is embedded as a no-op.) -/
def pyRemove {α : Type} [DecidableEq α] : List α → α → List α
  | [], _ => []
  | y :: ys, x => if y = x then ys else y :: pyRemove ys x

/-- The `for follower in f.followers` loop of `get_followers` (lines 322-335)
with Python's index-based iteration over the list it mutates: at step `i` the
element `lst[i]` is visited, its signature field is cleared in place, and on
any check failure `remove` deletes the first equal element; the index then
advances regardless, so the element after a removal is skipped.  `fuel` bounds
the iteration count; the runner passes the initial length, which suffices
because the index grows by one per step and the list never grows. -/
def get_followers_loop (sha : List Nat → List Nat)
    (ver : List Nat → List Nat → List Nat → Bool) (ser : Follower → List Nat)
    (nodeId : List Nat) : Nat → Nat → List Follower → List Follower
  | 0, _, lst => lst
  | fuel + 1, i, lst =>
    if h : i < lst.length then
      let e := lst[i]
      if signingKeyOk e.signed_pubkey then
        let e2 := clearSig e
        let lst2 := lst.set i e2
        if followerChecksOk sha ver ser nodeId e then
          get_followers_loop sha ver ser nodeId fuel (i + 1) lst2
        else
          get_followers_loop sha ver ser nodeId fuel (i + 1) (pyRemove lst2 e2)
      else
        get_followers_loop sha ver ser nodeId fuel (i + 1) (pyRemove lst e)
    else lst

/-- The follower list returned by `get_followers` once the outer list
signature has verified and the protobuf has parsed. -/
def get_followers_entries (sha : List Nat → List Nat)
    (ver : List Nat → List Nat → List Nat → Bool) (ser : Follower → List Nat)
    (nodeId : List Nat) (lst : List Follower) : List Follower :=
  get_followers_loop sha ver ser nodeId lst.length 0 lst

/-- An `objects.Following.User` protobuf entry; note it carries no
`following` field. -/
structure FUser where
  guid : List Nat
  signed_pubkey : List Nat
  metadata : List Nat
  signature : List Nat
deriving DecidableEq

/-- The per-user `try` body of `get_following` (lines 360-368): signature over
the serialized metadata, then the GUID proof-of-work; no field is cleared and
no check against the queried node's id exists. -/
def userChecksOk (sha : List Nat → List Nat)
    (ver : List Nat → List Nat → List Nat → Bool) (u : FUser) : Bool :=
  ver (u.signed_pubkey.drop 64) u.metadata u.signature &&
  guidValid (sha u.signed_pubkey) u.guid

/-- The `for user in f.users` loop of `get_following` (lines 360-370), same
index-based iteration-with-removal semantics as `get_followers_loop`. -/
def get_following_loop (sha : List Nat → List Nat)
    (ver : List Nat → List Nat → List Nat → Bool) :
    Nat → Nat → List FUser → List FUser
  | 0, _, lst => lst
  | fuel + 1, i, lst =>
    if h : i < lst.length then
      let u := lst[i]
      if signingKeyOk u.signed_pubkey && userChecksOk sha ver u then
        get_following_loop sha ver fuel (i + 1) lst
      else
        get_following_loop sha ver fuel (i + 1) (pyRemove lst u)
    else lst

/-- The user list returned by `get_following` after the outer verification. -/
def get_following_entries (sha : List Nat → List Nat)
    (ver : List Nat → List Nat → List Nat → Bool) (lst : List FUser) :
    List FUser :=
  get_following_loop sha ver lst.length 0 lst

/-- An `objects.Value` mailbox wrapper: ephemeral public key (`valueKey`)
and ciphertext (`serializedData`). -/
structure MValue where
  valueKey : List Nat
  serializedData : List Nat
deriving DecidableEq

/-- An `objects.Plaintext_Message`. -/
structure PMsg where
  sender_guid : List Nat
  signed_pubkey : List Nat
  encryption_pubkey : List Nat
  typ : Nat
  message : List Nat
  subject : List Nat
  signature : List Nat
deriving DecidableEq

/-- The argument tuple passed to `listener.notify` in `get_messages`. -/
structure Notification where
  sender_guid : List Nat
  encryption_pubkey : List Nat
  subject : List Nat
  typ : Nat
  message : List Nat
deriving DecidableEq

/-- `p.ClearField("signature")` on a plaintext message. -/
def clearPMsgSig (p : PMsg) : PMsg := { p with signature := [] }

/-- The signature-and-GUID acceptance test of `get_messages` (lines 462-469):
the signature field is cleared before re-serializing, then the signature and
the sender GUID proof-of-work are verified. -/
def message_sig_guid_ok (ser : PMsg → List Nat)
    (ver : List Nat → List Nat → List Nat → Bool) (sha : List Nat → List Nat)
    (p : PMsg) : Bool :=
  ver ((clearPMsgSig p).signed_pubkey.drop 64) (ser (clearPMsgSig p)) p.signature &&
  guidValid (sha (clearPMsgSig p).signed_pubkey) (clearPMsgSig p).sender_guid

/-- Processing of one mailbox entry inside `parse_messages` of `get_messages`
(lines 452-477).  The outer `try` wraps the `Value` parse; if it fails the
entry contributes nothing — in particular no overlay delete.  The inner `try`
wraps decrypt / parse / verify / notify; whatever it does, the delete of
`value.valueKey` that follows it still runs.  Returns the notifications
delivered and the overlay keys deleted for this entry.  `pv` is the `Value`
parse, `dec` the NaCl box open (also covering the `PublicKey` construction),
`pp` the plaintext-message parse. -/
def process_message (pv : List Nat → Option MValue)
    (dec : List Nat → List Nat → Option (List Nat))
    (pp : List Nat → Option PMsg) (ser : PMsg → List Nat)
    (ver : List Nat → List Nat → List Nat → Bool) (sha : List Nat → List Nat)
    (m : List Nat) : List Notification × List (List Nat) :=
  match pv m with
  | none => ([], [])
  | some v =>
    let notifs : List Notification :=
      match dec v.valueKey v.serializedData with
      | none => []
      | some pt =>
        match pp pt with
        | none => []
        | some p =>
          if message_sig_guid_ok ser ver sha p then
            [⟨(clearPMsgSig p).sender_guid, (clearPMsgSig p).encryption_pubkey,
              (clearPMsgSig p).subject, (clearPMsgSig p).typ,
              (clearPMsgSig p).message⟩]
          else []
    (notifs, [v.valueKey])

/-- The `for message in messages` loop of `parse_messages` in `get_messages`:
entries are processed independently, accumulating notifications and overlay
deletions in order. -/
def parse_messages (pv : List Nat → Option MValue)
    (dec : List Nat → List Nat → Option (List Nat))
    (pp : List Nat → Option PMsg) (ser : PMsg → List Nat)
    (ver : List Nat → List Nat → List Nat → Bool) (sha : List Nat → List Nat) :
    List (List Nat) → List Notification × List (List Nat)
  | [] => ([], [])
  | m :: ms =>
    let r := process_message pv dec pp ser ver sha m
    let rest := parse_messages pv dec pp ser ver sha ms
    (r.1 ++ rest.1, r.2 ++ rest.2)

/-- Spec-side restatement (for the inbox-drain claim): the notification an
entry yields, if any — it must parse as a `Value`, decrypt, parse as a
plaintext message, and pass the signature and GUID checks. -/
def notif_of_message (pv : List Nat → Option MValue)
    (dec : List Nat → List Nat → Option (List Nat))
    (pp : List Nat → Option PMsg) (ser : PMsg → List Nat)
    (ver : List Nat → List Nat → List Nat → Bool) (sha : List Nat → List Nat)
    (m : List Nat) : Option Notification :=
  match pv m with
  | none => none
  | some v =>
    match dec v.valueKey v.serializedData with
    | none => none
    | some pt =>
      match pp pt with
      | none => none
      | some p =>
        if message_sig_guid_ok ser ver sha p then
          some ⟨(clearPMsgSig p).sender_guid, (clearPMsgSig p).encryption_pubkey,
            (clearPMsgSig p).subject, (clearPMsgSig p).typ,
            (clearPMsgSig p).message⟩
        else none

/-- `Server.cache` (lines 544-551): the cache directory is a map from
`digest(content).encode("hex")` to the raw bytes; the write is skipped when
the file already exists.  `d` is the `digest` function. -/
def cache (d : List Nat → List Nat) (st : List (List Nat × List Nat))
    (content : List Nat) : List (List Nat × List Nat) :=
  if (List.lookup (hexChars (d content)) st).isSome then st
  else (hexChars (d content), content) :: st

/-- The `get_result` callback of `get_contract` (lines 50-83): the returned
bytes must hash to the requested `contract_hash` before anything else
happens; only then are they parsed and the vendor / moderator signature chain
checked (collapsed into the oracle `parseVerify`, since the claims quantify
over its outcome), and only on full success are the bytes cached.  Returns
the operation result together with the cache state. -/
def get_contract_result {α : Type} (d : List Nat → List Nat)
    (parseVerify : List Nat → Option α) (st : List (List Nat × List Nat))
    (resultBytes contractHash : List Nat) :
    Option α × List (List Nat × List Nat) :=
  if d resultBytes = contractHash then
    match parseVerify resultBytes with
    | none => (none, st)
    | some c => (some c, cache d st resultBytes)
  else (none, st)

/-- One follower in `send_notification`'s fan-out: the outcome of
`kserver.resolve` for its guid, and the response `(acked, payload)` its
`callNotify` would produce (consulted only if it resolved). -/
structure NotifyTarget where
  resolved : Option (List Nat)
  response : Bool × List String
deriving DecidableEq

/-- `how_many_reached` (lines 387-392): counts responses with
`resp[1][0]` truthy and `resp[1][1][0] == "True"`.  Python's `[0]` on an
empty payload raises IndexError, which would escape the callback; that case
is `Except.error`. -/
def how_many_reached : List (Bool × List String) → Nat → Except Unit Nat
  | [], count => Except.ok count
  | r :: rs, count =>
    if r.1 then
      match r.2.head? with
      | none => Except.error ()
      | some s =>
        how_many_reached rs (if s = ("True") then count + 1 else count)
    else how_many_reached rs count

/-- The followers that resolved to a live node (`if n[1] is not None`,
line 397), paired with their notify responses, in order. -/
def resolved_targets (followers : List NotifyTarget) :
    List (List Nat × (Bool × List String)) :=
  followers.filterMap (fun f => f.resolved.map (fun n => (n, f.response)))

/-- `Server.send_notification` (lines 376-405): messages over 140 characters
are rejected up front with a count of 0 and no `callNotify` is issued;
otherwise every resolved follower is notified and the acknowledgment count
returned.  The second component lists the nodes a `callNotify` was sent to. -/
def send_notification (message : List Nat) (followers : List NotifyTarget) :
    Except Unit Nat × List (List Nat) :=
  if 140 < message.length then (Except.ok 0, [])
  else
    let rs := resolved_targets followers
    (how_many_reached (rs.map Prod.snd) 0, rs.map Prod.fst)

/-- Spec-side restatement (for the notification claim): the number of
followers that both resolved to a live address and returned a positive
acknowledgment. -/
def reached_count (followers : List NotifyTarget) : Nat :=
  (followers.filter (fun f =>
    f.resolved.isSome && f.response.1 &&
    decide (f.response.2.head? = some ("True")))).length

/-- A store-and-forward mailbox entry as written by `send_message`'s fallback
(line 439): the overlay key `digest(receiving_node.id)`, and the encrypted
plaintext message, represented here by its `subject` tag and `message` body
(the NaCl box is a parameterized bijection and is elided). -/
structure MailboxEntry where
  key : List Nat
  subject : List Nat
  message : List Nat
deriving DecidableEq

/-- `Server.send_message` with `store_only=True` (lines 407-443): messages
over 1500 characters are silently dropped before anything is built or
stored; otherwise the signed, encrypted message is written to the overlay
under `digest(receiving_node.id)`. -/
def send_message_store_only (d : List Nat → List Nat)
    (recipientId message subject : List Nat) : Option MailboxEntry :=
  if 1500 < message.length then none
  else some ⟨d recipientId, subject, message⟩

/-- `del contract_dict["vendor_order_confirmation"]`-style key removal on the
JSON object, modelled on an association list. -/
def eraseKey (fields : List (String × List Nat)) (k : String) :
    List (String × List Nat) :=
  fields.filter (fun kv => kv.1 != k)

/-- The unreachable-buyer branch of `confirm_order` (lines 517-527): the
contract JSON round-trips, its `vendor_order_confirmation` key is deleted
(KeyError aborts everything if absent), the order id is the hex digest of the
re-serialized remainder, and the confirmation sub-document is sent via
`send_message(..., store_only=True)` with the order id as subject.  `d` is
`digest`, `sd` is `json.dumps` on the JSON object; field values carry their
own JSON text. -/
def confirm_order_offline (d : List Nat → List Nat)
    (sd : List (String × List Nat) → List Nat) (guid : List Nat)
    (contract : List (String × List Nat)) : Option MailboxEntry :=
  match List.lookup ("vendor_order_confirmation") contract with
  | none => none
  | some conf =>
    let contract_dict := eraseKey contract ("vendor_order_confirmation")
    let order_id := hexChars (d (sd contract_dict))
    send_message_store_only d guid conf order_id

/-- The PGP credential submessage of a profile.  Modelled from the spec: the
protobuf schema (`protos/objects`) is not part of the sources here; per §3
and §4.2 of the design the PGP-class credential carries exactly a public key
and a signature.  A generated protobuf message object has exactly its
declared attributes. -/
structure PGPCredential where
  public_key : List Nat
  signature : List Nat
deriving DecidableEq

/-- Modelled from the spec: attribute lookup on the generated PGP credential
message.  Only the declared fields resolve; any other attribute name (in
particular the camel-case `publicKey` read on line 127 of the source) raises
AttributeError, modelled as `none`. -/
def pgp_attr (k : PGPCredential) (name : String) : Option (List Nat) :=
  if name = ("public_key") then some k.public_key
  else if name = ("signature") then some k.signature
  else none

/-- An `objects.Profile`; `rest` stands for all fields the pgp handling does
not touch. -/
structure ProfileMsg where
  pgp_key : PGPCredential
  avatar_hash : List Nat
  header_hash : List Nat
  rest : List Nat
deriving DecidableEq

/-- `p.ClearField("pgp_key")`. -/
def clear_pgp (p : ProfileMsg) : ProfileMsg := { p with pgp_key := ⟨[], []⟩ }

/-- The `get_result` callback of `get_profile` (lines 118-137).  The whole
body sits in one `try` whose handler returns `None`.  After the outer
signature check (`outerSigOk`) and parse (`parsed`), a profile carrying a PGP
credential reaches `gpg.import_keys(p.pgp_key.publicKey)` — an attribute
lookup for the undeclared name `publicKey`, so AttributeError aborts to
`None`.  The intended continuation (verify, and on failure clear the field
and still return the profile) is embedded after the lookup, as the source
spells it.  `gpgVerify k sig` is the GnuPG verification outcome and
`nodeIdHex` the querying-side `node_to_ask.id.encode('hex')` whose presence
in the signature text is also required (line 129). -/
def get_profile_result (gpgVerify : List Nat → List Nat → Bool)
    (nodeIdHex : List Nat) (outerSigOk : Bool) (parsed : Option ProfileMsg) :
    Option ProfileMsg :=
  if outerSigOk then
    match parsed with
    | none => none
    | some p =>
      if p.pgp_key.public_key ≠ [] then
        match pgp_attr p.pgp_key ("publicKey") with
        | none => none
        | some k =>
          if !(gpgVerify k p.pgp_key.signature) ||
              !(decide (List.IsInfix nodeIdHex p.pgp_key.signature)) then
            some (clear_pgp p)
          else some p
      else some p
  else none

/-! Concrete instantiations used by counterexamples and witnesses. -/

/-- A hash oracle whose output makes the all-zero 20-byte GUID valid. -/
def shaZero : List Nat → List Nat := fun _ => List.replicate 64 0

/-- A hash oracle under which no all-zero GUID is valid (every output byte is
255, so the proof-of-work window is far above 50 and the prefix differs). -/
def shaFF : List Nat → List Nat := fun _ => List.replicate 64 255

/-- A signature oracle that accepts everything. -/
def verTrue : List Nat → List Nat → List Nat → Bool := fun _ _ _ => true

/-- A serialization oracle (its value is irrelevant to the checks studied). -/
def serNil : Follower → List Nat := fun _ => []

/-- Follower with an invalid GUID (under `shaFF`), `following` matching node
id `[9]`. -/
def c3f1 : Follower :=
  ⟨List.replicate 20 0, [9], List.replicate 96 0, [5], [6]⟩

/-- Second follower with an invalid GUID (under `shaFF`), distinct from
`c3f1`. -/
def c3f2 : Follower :=
  ⟨List.replicate 20 0, [9], List.replicate 96 0, [8], [7]⟩

/-- Follower with valid key, signature and GUID (under `shaZero`) but
`following = [1]`, not the queried node id `[9]`. -/
def c9f1 : Follower :=
  ⟨List.replicate 20 0, [1], List.replicate 96 0, [5], [6]⟩

/-- Second such follower, distinct from `c9f1`. -/
def c9f2 : Follower :=
  ⟨List.replicate 20 0, [1], List.replicate 96 0, [8], [7]⟩

/-- A following-list user with valid key, signature and GUID under
`shaZero`/`verTrue`. -/
def c9u1 : FUser := ⟨List.replicate 20 0, List.replicate 96 0, [5], [6]⟩

/-- Follower whose `signed_pubkey` is too short, so `VerifyKey` construction
fails before the signature field is cleared. -/
def c10bad : Follower := ⟨[0], [9], [], [0], [4]⟩

/-- Fully valid follower (under `shaZero`/`verTrue`, node id `[9]`) carrying
the nonempty signature `[7]`. -/
def c10good : Follower :=
  ⟨List.replicate 20 0, [9], List.replicate 96 0, [5], [7]⟩

/-- A parseable mailbox wrapper used by witnesses. -/
def mv0 : MValue := ⟨[1], [2]⟩

/-- A plaintext message whose sender GUID is invalid under `shaFF`. -/
def pm0 : PMsg := ⟨[1], List.replicate 96 0, [2], 0, [3], [4], [5]⟩

/-- A profile carrying a nonempty PGP credential. -/
def p0 : ProfileMsg := ⟨⟨[1], [2]⟩, [], [], [3]⟩

/-- A follower that resolves and acknowledges positively. -/
def c5f1 : NotifyTarget := ⟨some [1], (true, [("True")])⟩

/-- A follower that resolves but does not acknowledge. -/
def c5f2 : NotifyTarget := ⟨some [2], (false, [])⟩

/-- A follower that does not resolve to a live address. -/
def c5f3 : NotifyTarget := ⟨none, (true, [("True")])⟩

/-- A contract JSON object with a small confirmation sub-document. -/
def c6contract : List (String × List Nat) :=
  [(("vendor_order_confirmation"), [7])]

/-! Helper lemmas about the hex encoding. -/

lemma hexChars_nil : hexChars [] = [] := rfl

lemma hexChars_cons (b : Nat) (bs : List Nat) :
    hexChars (b :: bs) = b / 16 :: b % 16 :: hexChars bs := rfl

lemma hexChars_take (bs : List Nat) (k : Nat) :
    hexChars (bs.take k) = (hexChars bs).take (2 * k) := by
  induction bs generalizing k with
  | nil => simp [hexChars_nil]
  | cons b bs ih =>
    cases k with
    | zero => simp [hexChars_nil]
    | succ k =>
      have h2 : 2 * (k + 1) = 2 * k + 1 + 1 := by omega
      rw [List.take_succ_cons, hexChars_cons, hexChars_cons, h2,
        List.take_succ_cons, List.take_succ_cons, ih]

lemma hexChars_drop (bs : List Nat) (k : Nat) :
    hexChars (bs.drop k) = (hexChars bs).drop (2 * k) := by
  induction bs generalizing k with
  | nil => simp [hexChars_nil]
  | cons b bs ih =>
    cases k with
    | zero => simp
    | succ k =>
      have h2 : 2 * (k + 1) = 2 * k + 1 + 1 := by omega
      rw [List.drop_succ_cons, hexChars_cons, h2, List.drop_succ_cons,
        List.drop_succ_cons, ih]

lemma hexChars_inj : ∀ {a b : List Nat}, hexChars a = hexChars b → a = b := by
  intro a
  induction a with
  | nil =>
    intro b h
    cases b with
    | nil => rfl
    | cons y ys => rw [hexChars_nil, hexChars_cons] at h; exact absurd h (by simp)
  | cons x xs ih =>
    intro b h
    cases b with
    | nil => rw [hexChars_nil, hexChars_cons] at h; exact absurd h (by simp)
    | cons y ys =>
      rw [hexChars_cons, hexChars_cons] at h
      obtain ⟨h1, h2, h3⟩ : x / 16 = y / 16 ∧ x % 16 = y % 16 ∧
          hexChars xs = hexChars ys := by
        exact ⟨by injection h, by injection h with _ h'; injection h', by
          injection h with _ h'; injection h'⟩
      have hx : x = y := by omega
      rw [hx, ih h3]

lemma foldl_hexChars (bs : List Nat) :
    ∀ a : Nat, (hexChars bs).foldl (fun x d => 16 * x + d) a =
      bs.foldl (fun x b => 256 * x + b) a := by
  induction bs with
  | nil => intro a; rfl
  | cons b bs ih =>
    intro a
    rw [hexChars_cons, List.foldl_cons, List.foldl_cons, List.foldl_cons]
    have h : 16 * (16 * a + b / 16) + b % 16 = 256 * a + b := by omega
    rw [h, ih]

lemma intHex_hexChars (bs : List Nat) : intHex (hexChars bs) = beInt bs :=
  foldl_hexChars bs 0

/-! Helper lemmas about lists used by the loop embeddings. -/

lemma set_drop_succ {α : Type} :
    ∀ (l : List α) (i : Nat) (x : α), (l.set i x).drop (i + 1) = l.drop (i + 1) := by
  intro l
  induction l with
  | nil => intro i x; rfl
  | cons y ys ih =>
    intro i x
    cases i with
    | zero => rfl
    | succ i =>
      rw [List.set_cons_succ, List.drop_succ_cons, List.drop_succ_cons, ih]

lemma set_take_succ {α : Type} :
    ∀ (l : List α) (i : Nat) (x : α), i < l.length →
      (l.set i x).take (i + 1) = l.take i ++ [x] := by
  intro l
  induction l with
  | nil => intro i x h; simp at h
  | cons y ys ih =>
    intro i x h
    cases i with
    | zero => rfl
    | succ i =>
      rw [List.set_cons_succ, List.take_succ_cons, List.take_succ_cons,
        ih i x (by simpa using h)]
      rfl

lemma drop_eq_cons_get {α : Type} :
    ∀ (l : List α) (i : Nat) (h : i < l.length),
      l.drop i = l[i] :: l.drop (i + 1) := by
  intro l
  induction l with
  | nil => intro i h; simp at h
  | cons y ys ih =>
    intro i h
    cases i with
    | zero => rfl
    | succ i =>
      rw [List.drop_succ_cons, List.drop_succ_cons, ih i (by simpa using h)]
      rfl

/-- C1: for every identity record, the GUID check of `market/network.py`
succeeds iff the claimed GUID equals the first 20 bytes of the binding hash
and the designated 3-byte window of that hash (bytes 32-34, i.e. hex digits
64-69), read big-endian, is below 50; and on a mismatch the enclosing
operation yields a negative result (here: the inbox pipeline delivers no
notification for that entry). -/
theorem guid_verification_spec :
    (∀ hashBytes guid, guidValid hashBytes guid = true ↔
      (guid = hashBytes.take 20 ∧ beInt ((hashBytes.drop 32).take 3) < 50)) ∧
    (∀ pv dec pp ser ver sha m v pt p, pv m = some v →
      dec v.valueKey v.serializedData = some pt → pp pt = some p →
      guidValid (sha p.signed_pubkey) p.sender_guid = false →
      (process_message pv dec pp ser ver sha m).1 = []) := by
  constructor
  · intro hb g
    unfold guidValid
    have e1 : (hexChars hb).take 40 = hexChars (hb.take 20) := by
      rw [hexChars_take]
    have e2 : (((hexChars hb).drop 64).take 64).take 6 =
        hexChars ((hb.drop 32).take 3) := by
      rw [List.take_take, hexChars_take, hexChars_drop]
      norm_num
    rw [e2, intHex_hexChars, e1]
    simp only [Bool.and_eq_true, decide_eq_true_eq]
    constructor
    · rintro ⟨hlt, heq⟩
      exact ⟨hexChars_inj heq, hlt⟩
    · rintro ⟨heq, hlt⟩
      exact ⟨hlt, by rw [heq]⟩
  · intro pv dec pp ser ver sha m v pt p hpv hdec hpp hg
    simp only [process_message, hpv, hdec, hpp]
    simp [message_sig_guid_ok, clearPMsgSig, hg]

/-- Witness for `guid_verification_spec` at concrete inputs: the all-zero
hash validates the all-zero 20-byte GUID, and an entry whose sender GUID
fails the check yields no notification. -/
theorem guid_verification_spec_witness :
    guidValid (List.replicate 64 0) (List.replicate 20 0) = true ∧
    (process_message (fun _ => some mv0) (fun _ _ => some [3])
      (fun _ => some pm0) (fun _ => []) verTrue shaFF [0]).1 = [] := by
  constructor
  · exact (guid_verification_spec.1 (List.replicate 64 0)
      (List.replicate 20 0)).mpr ⟨by decide, by decide⟩
  · exact guid_verification_spec.2 _ _ _ _ _ _ [0] mv0 [3] pm0 rfl rfl rfl
      (by decide)

/-- C2: if the fetched bytes do not hash to the requested contract hash,
`get_contract` returns no result — whatever the parse/verification oracle
would have said — and the cache is left untouched. -/
theorem get_contract_hash_mismatch {α : Type} (d : List Nat → List Nat)
    (parseVerify : List Nat → Option α) (st : List (List Nat × List Nat))
    (resultBytes contractHash : List Nat)
    (h : d resultBytes ≠ contractHash) :
    get_contract_result d parseVerify st resultBytes contractHash =
      (none, st) := by
  unfold get_contract_result
  rw [if_neg h]

/-- Witness for `get_contract_hash_mismatch` at concrete inputs. -/
theorem get_contract_hash_mismatch_witness :
    get_contract_result (fun _ => [0]) (fun _ => some true) [] [1] [2] =
      (none, []) :=
  get_contract_hash_mismatch (fun _ => [0]) (fun _ => some true) [] [1] [2]
    (by decide)

/-- C8: caching is idempotent and write-once — caching the same bytes twice
leaves the cache exactly as caching them once, and a write whose
content-hash key is already present is a no-op. -/
theorem cache_idempotent_write_once :
    (∀ d st b, cache d (cache d st b) b = cache d st b) ∧
    (∀ d st b v, List.lookup (hexChars (d b)) st = some v →
      cache d st b = st) := by
  constructor
  · intro d st b
    cases hl : List.lookup (hexChars (d b)) st with
    | none =>
      simp only [cache, hl, Option.isSome_none, Bool.false_eq_true,
        if_false]
      simp [List.lookup]
    | some v =>
      simp [cache, hl]
  · intro d st b v h
    simp [cache, h]

/-- Witness for `cache_idempotent_write_once` at a concrete cache state whose
key for the written content is already present. -/
theorem cache_idempotent_write_once_witness :
    cache (fun _ => [1]) [([0, 1], [9])] [2] = [([0, 1], [9])] :=
  cache_idempotent_write_once.2 (fun _ => [1]) [([0, 1], [9])] [2] [9]
    (by decide)

/-- The notifications one entry contributes are exactly `notif_of_message`. -/
lemma process_message_fst (pv : List Nat → Option MValue)
    (dec : List Nat → List Nat → Option (List Nat))
    (pp : List Nat → Option PMsg) (ser : PMsg → List Nat)
    (ver : List Nat → List Nat → List Nat → Bool) (sha : List Nat → List Nat)
    (m : List Nat) :
    (process_message pv dec pp ser ver sha m).1 =
      (notif_of_message pv dec pp ser ver sha m).toList := by
  unfold process_message notif_of_message
  cases pv m with
  | none => rfl
  | some v =>
    dsimp only
    cases dec v.valueKey v.serializedData with
    | none => rfl
    | some pt =>
      dsimp only
      cases pp pt with
      | none => rfl
      | some p =>
        dsimp only
        cases h : message_sig_guid_ok ser ver sha p <;> simp [h]

/-- One entry deletes exactly the `valueKey` of its parsed wrapper, if it
parsed at all. -/
lemma process_message_snd (pv : List Nat → Option MValue)
    (dec : List Nat → List Nat → Option (List Nat))
    (pp : List Nat → Option PMsg) (ser : PMsg → List Nat)
    (ver : List Nat → List Nat → List Nat → Bool) (sha : List Nat → List Nat)
    (m : List Nat) :
    (process_message pv dec pp ser ver sha m).2 =
      ((pv m).map MValue.valueKey).toList := by
  unfold process_message
  cases pv m with
  | none => rfl
  | some v => rfl

/-- C4 (amended): draining the inbox notifies the listener exactly once per
entry that parses, decrypts and passes signature and GUID verification, in
order; it deletes from the overlay exactly the entries whose `Value` wrapper
parsed — regardless of their decrypt/verify outcome — while an entry whose
wrapper fails to parse is neither delivered nor deleted; and each entry is
processed independently, so one bad entry does not abort the rest. -/
theorem parse_messages_spec (pv : List Nat → Option MValue)
    (dec : List Nat → List Nat → Option (List Nat))
    (pp : List Nat → Option PMsg) (ser : PMsg → List Nat)
    (ver : List Nat → List Nat → List Nat → Bool) (sha : List Nat → List Nat) :
    ∀ msgs : List (List Nat),
      (parse_messages pv dec pp ser ver sha msgs).1 =
        msgs.filterMap (notif_of_message pv dec pp ser ver sha) ∧
      (parse_messages pv dec pp ser ver sha msgs).2 =
        (msgs.filterMap pv).map MValue.valueKey := by
  intro msgs
  induction msgs with
  | nil => exact ⟨rfl, rfl⟩
  | cons m ms ih =>
    constructor
    · show (process_message pv dec pp ser ver sha m).1 ++
        (parse_messages pv dec pp ser ver sha ms).1 = _
      rw [process_message_fst, ih.1, List.filterMap_cons]
      cases notif_of_message pv dec pp ser ver sha m <;>
        simp [Option.toList]
    · show (process_message pv dec pp ser ver sha m).2 ++
        (parse_messages pv dec pp ser ver sha ms).2 = _
      rw [process_message_snd, ih.2, List.filterMap_cons]
      cases pv m <;> simp [Option.toList]

/-- Counterexample to C4 as stated: a mailbox holding one entry whose
`Value` wrapper does not parse produces zero overlay deletions, so not every
one of the N entries is deleted. -/
theorem parse_messages_undeleted_entry :
    (parse_messages (fun _ => none) (fun _ _ => none) (fun _ => none)
      (fun _ => []) verTrue shaZero [[0]]).2 = ([] : List (List Nat)) ∧
    ([[0]] : List (List Nat)).length = 1 := by
  exact ⟨rfl, rfl⟩

/-- Accumulator lemma for `how_many_reached` over the resolved targets: when
every would-be-counted response carries a nonempty payload (so Python's
`resp[1][1][0]` cannot raise), the count is exactly the number of followers
that resolved and acknowledged positively. -/
lemma how_many_reached_resolved :
    ∀ (followers : List NotifyTarget) (count : Nat),
      (∀ f ∈ followers, f.resolved.isSome = true → f.response.1 = true →
        f.response.2 ≠ []) →
      how_many_reached ((resolved_targets followers).map Prod.snd) count =
        Except.ok (count + reached_count followers) := by
  intro followers
  induction followers with
  | nil =>
    intro count _
    simp [resolved_targets, reached_count, how_many_reached]
  | cons f fs ih =>
    intro count h
    have hf := h f (List.mem_cons_self f fs)
    have hfs : ∀ g ∈ fs, g.resolved.isSome = true → g.response.1 = true →
        g.response.2 ≠ [] := fun g hg => h g (List.mem_cons_of_mem f hg)
    cases hr : f.resolved with
    | none =>
      have h1 : resolved_targets (f :: fs) = resolved_targets fs := by
        simp [resolved_targets, List.filterMap_cons, hr]
      have h2 : reached_count (f :: fs) = reached_count fs := by
        simp [reached_count, List.filter_cons, hr]
      rw [h1, h2]
      exact ih count hfs
    | some n =>
      have h1 : resolved_targets (f :: fs) =
          (n, f.response) :: resolved_targets fs := by
        simp [resolved_targets, List.filterMap_cons, hr]
      rw [h1, List.map_cons]
      cases hb : f.response.1 with
      | false =>
        have h2 : reached_count (f :: fs) = reached_count fs := by
          simp [reached_count, List.filter_cons, hr, hb]
        rw [h2]
        simp only [how_many_reached, hb, Bool.false_eq_true, if_false]
        exact ih count hfs
      | true =>
        have hne := hf (by rw [hr]; rfl) hb
        cases hh : f.response.2 with
        | nil => exact absurd hh hne
        | cons s tl =>
          simp only [how_many_reached, hb, hh, if_true, List.head?_cons]
          by_cases hs : s = ("True")
          · rw [if_pos hs, ih _ hfs]
            have h2 : reached_count (f :: fs) = reached_count fs + 1 := by
              simp [reached_count, List.filter_cons, hr, hb, hh, hs]
            rw [h2]
            congr 1
            omega
          · rw [if_neg hs, ih _ hfs]
            have h2 : reached_count (f :: fs) = reached_count fs := by
              simp [reached_count, List.filter_cons, hr, hb, hh, hs]
            rw [h2]

/-- C5: a notification over 140 characters yields a reached-count of 0 with
no delivery attempted; one of at most 140 characters yields the number of
followers that both resolved to a live address and acknowledged positively
(followers that fail to resolve or to acknowledge are not counted).  The
payload well-formedness hypothesis reflects the transport interface (§6): a
successful notify response carries its acknowledgment string. -/
theorem send_notification_spec :
    (∀ message followers, 140 < message.length →
      send_notification message followers = (Except.ok 0, [])) ∧
    (∀ message followers, message.length ≤ 140 →
      (∀ f ∈ followers, f.resolved.isSome = true → f.response.1 = true →
        f.response.2 ≠ []) →
      (send_notification message followers).1 =
        Except.ok (reached_count followers)) := by
  constructor
  · intro message followers h
    unfold send_notification
    rw [if_pos h]
  · intro message followers hlen h
    unfold send_notification
    rw [if_neg (by omega)]
    dsimp only
    rw [how_many_reached_resolved followers 0 h, Nat.zero_add]

/-- Witness for `send_notification_spec`: a 141-character message reaches
nobody and triggers no delivery; a 2-character message over three followers
of which two resolve and one acknowledges reaches exactly 1. -/
theorem send_notification_spec_witness :
    send_notification (List.replicate 141 0) [] = (Except.ok 0, []) ∧
    (send_notification [104, 105] [c5f1, c5f2, c5f3]).1 = Except.ok 1 := by
  constructor
  · exact send_notification_spec.1 (List.replicate 141 0) [] (by simp)
  · have h := send_notification_spec.2 [104, 105] [c5f1, c5f2, c5f3]
      (by decide) (by decide)
    have h1 : reached_count [c5f1, c5f2, c5f3] = 1 := by decide
    rw [h, h1]

/-- C6 (amended): `confirm_order` for a buyer that does not resolve stores a
mailbox entry keyed by the digest of the recipient's id whose payload is
tagged with the hex digest of the contract serialized with its
`vendor_order_confirmation` field removed — provided the contract carries
that field and the serialized confirmation does not exceed `send_message`'s
1500-character limit (an oversized confirmation is silently dropped and
nothing is stored). -/
theorem confirm_order_offline_spec (d : List Nat → List Nat)
    (sd : List (String × List Nat) → List Nat) (guid : List Nat)
    (contract : List (String × List Nat)) (conf : List Nat)
    (hconf : List.lookup ("vendor_order_confirmation") contract = some conf)
    (hlen : conf.length ≤ 1500) :
    confirm_order_offline d sd guid contract =
      some ⟨d guid,
        hexChars (d (sd (eraseKey contract ("vendor_order_confirmation")))),
        conf⟩ := by
  unfold confirm_order_offline
  rw [hconf]
  dsimp only
  unfold send_message_store_only
  rw [if_neg (by omega)]

/-- Witness for `confirm_order_offline_spec` at concrete inputs. -/
theorem confirm_order_offline_spec_witness :
    confirm_order_offline (fun _ => [3]) (fun _ => [4]) [1] c6contract =
      some ⟨[3], [0, 3], [7]⟩ := by
  have h := confirm_order_offline_spec (fun _ => [3]) (fun _ => [4]) [1]
    c6contract [7] (by decide) (by decide)
  rw [h]
  rfl

/-- Counterexample to C6 as stated: an unreachable buyer whose contract's
confirmation sub-document serializes to 1501 characters gets no mailbox
entry at all — `send_message`'s length guard drops it before the store. -/
theorem confirm_order_offline_oversized :
    confirm_order_offline (fun _ => [3]) (fun _ => [4]) [1]
      [(("vendor_order_confirmation"), List.replicate 1501 0)] = none := by
  unfold confirm_order_offline
  rw [show List.lookup ("vendor_order_confirmation")
      [(("vendor_order_confirmation"), List.replicate 1501 0)] =
      some (List.replicate 1501 0) from rfl]
  dsimp only
  unfold send_message_store_only
  rw [if_pos (by rw [List.length_replicate]; omega)]

/-- C7: a profile carrying any nonempty PGP credential makes `get_profile`
return no result — the attribute lookup `p.pgp_key.publicKey` on line 127
names an undeclared field (the message declares `public_key`), so the
blanket handler swallows the AttributeError — even when the outer signature
is valid and GnuPG verification would have succeeded; the credential is
never cleared and the rest of the profile is lost. -/
theorem get_profile_pgp_credential_aborts :
    get_profile_result (fun _ _ => true) [0] true (some p0) = none ∧
    p0.pgp_key.public_key = [1] := by
  exact ⟨rfl, rfl⟩

/-- C3: evaluation at the failing input — a follower list whose two entries
both carry invalid GUIDs.  Removing the first entry shifts the list under
the index-based iterator, so the second invalid entry is skipped and
survives in the returned list, unverified. -/
theorem get_followers_skips_after_removal :
    get_followers_entries shaFF verTrue serNil [9] [c3f1, c3f2] = [c3f2] ∧
    guidValid (shaFF c3f2.signed_pubkey) c3f2.guid = false := by
  exact ⟨by decide, by decide⟩

/-- C9: evaluation at the failing input — `get_followers` treats an entry
whose `following` field differs from the queried node's id as invalid even
when its signature and GUID are valid, but removal-during-iteration lets
the second such consecutive entry survive; and `get_following` keeps a
valid entry unconditionally, having no analogous check (its entry type has
no `following` field at all). -/
theorem get_followers_following_field_check :
    get_followers_entries shaZero verTrue serNil [9] [c9f1, c9f2] = [c9f2] ∧
    get_following_entries shaZero verTrue [c9u1] = [c9u1] := by
  exact ⟨by decide, by decide⟩

/-- Counterexample to C10 as stated: when the first entry fails verification
and is removed, the following valid entry is skipped by the index-based
iterator and is returned still carrying its original, nonempty signature. -/
theorem get_followers_surviving_signature_kept :
    get_followers_entries shaZero verTrue serNil [9] [c10bad, c10good] =
      [c10good] ∧ c10good.signature = [7] := by
  exact ⟨by decide, rfl⟩

/-- Loop invariant for the all-valid case of `get_followers`: starting at
index `i` with enough fuel, every remaining entry passes its checks, so each
is cleared in place and kept; the processed prefix is untouched. -/
lemma get_followers_loop_all_valid (sha : List Nat → List Nat)
    (ver : List Nat → List Nat → List Nat → Bool) (ser : Follower → List Nat)
    (nodeId : List Nat) :
    ∀ (fuel i : Nat) (lst : List Follower), lst.length ≤ i + fuel →
      (∀ e ∈ lst.drop i, signingKeyOk e.signed_pubkey = true ∧
        followerChecksOk sha ver ser nodeId e = true) →
      get_followers_loop sha ver ser nodeId fuel i lst =
        lst.take i ++ (lst.drop i).map clearSig := by
  intro fuel
  induction fuel with
  | zero =>
    intro i lst hlen _
    rw [List.drop_eq_nil_of_le (by omega), List.take_of_length_le (by omega)]
    simp [get_followers_loop]
  | succ fuel ih =>
    intro i lst hlen hok
    by_cases h : i < lst.length
    · have hdrop := drop_eq_cons_get lst i h
      have hmem : lst[i] ∈ lst.drop i := by
        rw [hdrop]
        exact List.mem_cons_self _ _
      obtain ⟨hk, hc⟩ := hok _ hmem
      simp only [get_followers_loop]
      rw [dif_pos h]
      rw [if_pos hk, if_pos hc]
      have hrec := ih (i + 1) (lst.set i (clearSig lst[i]))
        (by rw [List.length_set]; omega)
        (by
          intro e he
          rw [set_drop_succ] at he
          exact hok e (by rw [hdrop]; exact List.mem_cons_of_mem _ he))
      rw [hrec, set_take_succ lst i _ h, set_drop_succ, hdrop]
      simp only [List.map_cons, List.append_assoc, List.singleton_append]
    · have hge : lst.length ≤ i := by omega
      rw [List.drop_eq_nil_of_le hge, List.take_of_length_le hge]
      simp only [get_followers_loop]
      rw [dif_neg h]
      simp

/-- C10 (amended): every follower entry the verification loop visits and
keeps is returned with its signature field cleared — in particular, when all
entries pass verification, the returned list is exactly the input with every
signature cleared.  (An entry skipped after a removal is returned with its
original signature, per `get_followers_surviving_signature_kept`.) -/
theorem get_followers_clears_kept_signatures (sha : List Nat → List Nat)
    (ver : List Nat → List Nat → List Nat → Bool) (ser : Follower → List Nat)
    (nodeId : List Nat) (lst : List Follower)
    (h : ∀ e ∈ lst, signingKeyOk e.signed_pubkey = true ∧
      followerChecksOk sha ver ser nodeId e = true) :
    get_followers_entries sha ver ser nodeId lst = lst.map clearSig := by
  unfold get_followers_entries
  have hmain := get_followers_loop_all_valid sha ver ser nodeId lst.length 0
    lst (by omega) (by simpa using h)
  simpa using hmain

/-- Witness for `get_followers_clears_kept_signatures` on a singleton list
whose entry passes every check. -/
theorem get_followers_clears_kept_signatures_witness :
    get_followers_entries shaZero verTrue serNil [9] [c10good] =
      List.map clearSig [c10good] :=
  get_followers_clears_kept_signatures shaZero verTrue serNil [9] [c10good]
    (by decide)
